import Mathlib

/-!
Verification development for the ScannerPi repository.

We give a shallow embedding of the three core subsystems:

* the response decoder (`src/scanmon/scanner/formatter/__init__.py`,
  together with the per-command schema modules `GLG.py`, `MDL.py`,
  `VER.py`, `STS.py`),
* the command/response correlator (`src/scanmon/scanner/__init__.py`), and
* the GLG reception tracker (`src/scanmon/glgmonitor.py`).

Python strings are `String`, machine timestamps are modelled as integer
seconds (`Int`); `datetime` subtraction followed by `.seconds` becomes
`(a - b) % 86400` (Python's floor modulus agrees with `Int.emod` for a
positive modulus), and `.total_seconds()` becomes plain subtraction.
Fallible code returns `Except`/`Option`; a `none` at the top level of the
decoder models a computation that does not terminate for any amount of
fuel.  The wire protocol is ASCII, for which Python's `str.upper` agrees
with `Char.toUpper` mapped over the characters.
-/

namespace Scanmon

/-! ## Python string primitives used by the decoder -/

/-- Python `str.split(',')`: split on every comma, keeping empty pieces; the
empty string yields one empty piece. -/
def splitCommaChars : List Char → List (List Char)
  | [] => [[]]
  | c :: rest =>
    let r := splitCommaChars rest
    if c == ',' then [] :: r
    else
      match r with
      | [] => [[c]]
      | h :: t => (c :: h) :: t

/-- Python `line.split(',')` on a Lean `String`. -/
def pySplit (s : String) : List String :=
  (splitCommaChars s.data).map (fun l => ⟨l⟩)

/-- Python `line.rstrip('\r')`: drop every trailing carriage return. -/
def pyRstripCR (s : String) : String :=
  ⟨(s.data.reverse.dropWhile (fun c => c == '\r')).reverse⟩

/-- Python `s.upper()` for the ASCII protocol strings. -/
def pyUpper (s : String) : String :=
  ⟨s.data.map Char.toUpper⟩

/-- The test `name == name.upper()`: the test `Response.__getattr__` applies before
returning `None` for an absent response variable. -/
def isUpperName (s : String) : Bool :=
  s.data.all (fun c => c.toUpper == c)

/-! ## Response decoder (`scanmon/scanner/formatter/__init__.py`) -/

/-- The decoded response object.  `CMD`, `response`, `parts`, `VARLIST`,
`status` and (in the acknowledgement branch) `RESP` are the attributes
`Response.__init__` assigns; `attrs` records, in assignment order, the
response variables a decoder (`gendecode`, `STS.decode`) sets on the
instance.  The `TIME` stamp and the `display` function carry no
information relevant to the claims and are omitted. -/
structure PyResponse where
  CMD : String
  response : String
  parts : List String
  VARLIST : List String
  RESP : Option String
  status : String
  attrs : List (String × String)
deriving DecidableEq

/-- Attribute names visible on a freshly initialised data `Response`
before any decoder runs: the instance attributes set in `__init__` plus
the class-level constants (Python's `hasattr` sees both). -/
def baseAttrNames : List String :=
  ["CMD", "response", "parts", "TIME", "display", "VARLIST", "status",
   "OK", "NG", "ERR", "FER", "ORER", "DECODEERROR", "RESP"]

/-- Models `hasattr(response, name)` during `gendecode`.  Crucially,
`Response.__getattr__` returns `None` — it does not raise — for any
all-uppercase name, and returning a value makes `hasattr` report `True`;
hence the final disjunct. -/
def hasattrPy (attrs : List (String × String)) (name : String) : Bool :=
  baseAttrNames.contains name || attrs.any (fun p => p.1 == name) ||
    isUpperName name

/-- The duplicate-name suffix search inside `gendecode`:
`incr = 1; while hasattr(response, var + str(incr)): incr += 1`,
run with explicit fuel; `none` means the loop has not exited within
`fuel` iterations. -/
def findFree (present : String → Bool) (v : String) :
    Nat → Nat → Option String
  | 0, _ => none
  | fuel + 1, incr =>
    if present (v ++ Nat.repr incr) then findFree present v fuel (incr + 1)
    else some (v ++ Nat.repr incr)

/-- The loop body of `gendecode`: walk the parts, naming position `i`
after `VARLIST[i]` (or `VAR` past the end), diverting to the suffix
search whenever `hasattr` reports the name as present. -/
def gendecodeGo (varlist : List String) :
    List String → Nat → List (String × String) → Nat →
      Option (List (String × String))
  | [], _, attrs, _ => some attrs
  | val :: rest, i, attrs, fuel =>
    let v := varlist.getD i "VAR"
    if hasattrPy attrs v then
      match findFree (hasattrPy attrs) v fuel 1 with
      | none => none
      | some v2 => gendecodeGo varlist rest (i + 1) (attrs ++ [(v2, val)]) fuel
    else gendecodeGo varlist rest (i + 1) (attrs ++ [(v, val)]) fuel

/-- Models `gendecode(response)`: the generic fallback decoder. -/
def gendecode (fuel : Nat) (varlist : List String) (parts : List String) :
    Option (List (String × String)) :=
  gendecodeGo varlist parts 0 [] fuel

/-- The schema `GLG.VARLIST`. -/
def GLG_VARLIST : List String :=
  ["CMD", "FRQ_TGID", "MOD", "ATT", "CTCSS_DCS", "NAME1",
   "NAME2", "NAME3", "SQL", "MUT", "SYS_TAG", "CHAN_TAG", "P25NAC"]

/-- The schema `STS._VARLIST`. -/
def STS_VARLIST : List String :=
  ["CMD", "DSP_FORM",
   "L1_CHAR", "L1_MODE", "L2_CHAR", "L2_MODE",
   "L3_CHAR", "L3_MODE", "L4_CHAR", "L4_MODE",
   "L5_CHAR", "L5_MODE", "L6_CHAR", "L6_MODE",
   "L7_CHAR", "L7_MODE", "L8_CHAR", "L8_MODE",
   "SQL", "MUT", "RSV", "BAT", "WAT", "SIG_LVL", "BK_COLOR", "BK_DIMMER"]

/-- Python `del lst[a:b]` on a Python list (indices clamp; an empty or reversed
slice deletes nothing). -/
def pyDelSlice (l : List String) (a b : Nat) : List String :=
  l.take a ++ l.drop (max a b)

/-- Plain `setattr(response, name, value)` as `STS.decode` performs it:
an existing assignment of the same name is overwritten, a name matching
an `__init__` attribute (only `CMD` occurs in `STS._VARLIST`) overwrites
that attribute. -/
def stsSetattr (r : PyResponse) (name val : String) : PyResponse :=
  if name == "CMD" then { r with CMD := val }
  else if r.attrs.any (fun p => p.1 == name) then
    { r with attrs := r.attrs.map (fun p => if p.1 == name then (name, val) else p) }
  else { r with attrs := r.attrs ++ [(name, val)] }

/-- The assignment loop of `STS.decode`. -/
def stsGo (varlist : List String) : List String → Nat → PyResponse → PyResponse
  | [], _, r => r
  | val :: rest, i, r =>
    stsGo varlist rest (i + 1) (stsSetattr r (varlist.getD i "VAR") val)

/-- Models `STS.decode(response)`: trim the unused display lines out of the
variable list (`_DSP_FORM_INDEX = 1`, `_SQL_INDX = 18`), then assign
positionally with plain `setattr`. -/
def stsDecode (r : PyResponse) : PyResponse :=
  let varlist := pyDelSlice STS_VARLIST (1 + 1 + (r.parts.getD 1 "").length * 2) 18
  stsGo varlist r.parts 0 r

/-- The terminal acknowledgement codes recognised in `Response.__init__`. -/
def ackCodes : List String := ["OK", "NG", "FER", "ORER"]

/-- The schema registry reachable through `import_module('.' + CMD)`:
`GLG`, `MDL` and `VER` export a `VARLIST`; any other command (including
`MODEL`, since `CMD` is upper-cased and the module is named `Model`)
falls back to the default `('CMD',)`. -/
def varlistFor (cmd : String) : List String :=
  if cmd == "GLG" then GLG_VARLIST
  else if cmd == "MDL" then ["CMD", "MDL"]
  else if cmd == "VER" then ["CMD", "VER"]
  else ["CMD"]

/-- Models `Response.__init__(response)`.  `some (Except.error e)` models a
raised `ScannerDecodeError`, `some (Except.ok r)` a constructed
response, and `none` a constructor that does not return within `fuel`
iterations of the `gendecode` suffix search. -/
def decodeResponse (input : Option String) (fuel : Nat) :
    Option (Except String PyResponse) :=
  match input with
  | none => some (Except.error "None is invalid as a response")
  | some line =>
    if line == "" then
      some (Except.ok
        { CMD := "", response := "", parts := [], VARLIST := ["CMD"],
          RESP := none, status := "DECODEERROR", attrs := [] })
    else
      let resp := pyRstripCR line
      let parts := pySplit resp
      if parts.length < 2 then
        some (Except.error ("Invalid response (" ++ resp ++ ") from scanner"))
      else
        let cmd := pyUpper (parts.headD "")
        if parts.length == 2 && ackCodes.contains (parts.getD 1 "") then
          some (Except.ok
            { CMD := cmd, response := resp, parts := parts,
              VARLIST := ["CMD"], RESP := some (parts.getD 1 ""),
              status := parts.getD 1 "", attrs := [] })
        else
          let varlist := varlistFor cmd
          let base : PyResponse :=
            { CMD := cmd, response := resp, parts := parts,
              VARLIST := varlist, RESP := none, status := "RESP", attrs := [] }
          if cmd == "STS" then some (Except.ok (stsDecode base))
          else
            match gendecode fuel varlist parts with
            | none => none
            | some attrs => some (Except.ok { base with attrs := attrs })

/-! ## Command/response correlator (`scanmon/scanner/__init__.py`) -/

/-- A `Command`: the canonical name (`cmd`, upper-cased first token of
`cmdstring`), the raw text, an optional callback and opaque user data.
Callback identity and user data are modelled by numeric identifiers, so
that the set-semantics equality (`__hash__`/`__eq__` over all four
components) becomes decidable equality of the structure. -/
structure Command where
  cmd : String
  cmdstring : String
  callback : Option Nat
  userdata : Nat
deriving DecidableEq

/-- The part of a decoded `Response` the dispatch loop consults. -/
structure RespKey where
  CMD : String
deriving DecidableEq

/-- The watcher table `Scanner._response_queue`: a dict from command
name to a set of `Command`s, whose `__missing__` yields an empty set.
We model it as a total function defaulting to `[]`; the stored sets are
duplicate-free lists. -/
def WatchQueue := String → List Command

/-- Models `Scanner.watch_command`: register `command` under its name if it
carries a callback; set semantics make re-registration a no-op. -/
def watch_command (q : WatchQueue) (c : Command) : WatchQueue :=
  if c.callback.isSome then
    fun k =>
      if k = c.cmd then (if c ∈ q c.cmd then q c.cmd else q c.cmd ++ [c])
      else q k
  else q

/-- One line's dispatch inside `Scanner.read_scanner`, after the line
has been decoded: fetch the watcher set for `resp.CMD`, falling back to
the wildcard entry when it is empty; invoke every watcher of a snapshot
once (second component); keep exactly the watchers whose callback
returned `False`.  `cb` gives each callback's semantics on this
response. -/
def read_dispatch (cb : Command → RespKey → Bool) (q : WatchQueue)
    (resp : RespKey) : WatchQueue × List Command :=
  let clist := q resp.CMD
  let key := if clist.length = 0 then "*" else resp.CMD
  let clist := if clist.length = 0 then q "*" else clist
  (fun k => if k = key then clist.filter (fun c => !(cb c resp)) else q k,
   clist)

/-! ## GLG reception tracker (`scanmon/glgmonitor.py`) -/

/-- States of `ReceivingState`: the three tracker states. -/
inductive ReceivingState where
  | IDLE
  | RECEIVING
  | TIMEOUT
deriving DecidableEq

/-- The named fields of a decoded `GLG` response that the monitor
consumes (`TIME` is the reception timestamp the `Response` carries). -/
structure GlgResp where
  TIME : Int
  FRQ_TGID : String
  MOD : String
  ATT : String
  CTCSS_DCS : String
  NAME1 : String
  NAME2 : String
  NAME3 : String
  SQL : String
  MUT : String
  SYS_TAG : String
  CHAN_TAG : String
  P25NAC : String
deriving DecidableEq

/-- One tracked reception (`Reception.__init__`); the urwid widget
fields and the cached info string are presentation-only and omitted. -/
structure Reception where
  starttime : Int
  duration : Int
  system : String
  group : String
  channel : String
  frequency_tgid : String
  ctcss_dcs : String
  modulation : String
  attenuation : String
  system_tag : String
  channel_tag : String
  p25nac : String
  last_active_time : Int
  last_active_state : Bool
  lastseen : Option Int
deriving DecidableEq

/-- Models `Reception(glgresp)`. -/
def Reception.ofGlg (g : GlgResp) : Reception :=
  { starttime := g.TIME, duration := 0,
    system := g.NAME1, group := g.NAME2, channel := g.NAME3,
    frequency_tgid := g.FRQ_TGID, ctcss_dcs := g.CTCSS_DCS,
    modulation := g.MOD, attenuation := g.ATT,
    system_tag := g.SYS_TAG, channel_tag := g.CHAN_TAG,
    p25nac := g.P25NAC,
    last_active_time := g.TIME, last_active_state := true,
    lastseen := none }

/-- Models `Reception.sys_id`. -/
def Reception.sys_id (r : Reception) : String :=
  r.system ++ "-" ++ r.group ++ "-" ++ r.channel

/-- A row key of the `LastSeen` table. -/
abbrev LSKey := String × String × String

/-- The in-memory `LastSeen` table: one row per system/group/channel
triple holding the most recent start time. -/
abbrev LastSeenTable := List (LSKey × Int)

/-- The `SELECT "LastTime" FROM "LastSeen" WHERE ...` lookup. -/
def lsLookup (tbl : LastSeenTable) (k : LSKey) : Option Int :=
  (tbl.find? (fun row => row.1 = k)).map (fun row => row.2)

/-- The `UPDATE`-if-present-else-`INSERT` pair `create_reception`
executes against `LastSeen`. -/
def lsUpsert (tbl : LastSeenTable) (k : LSKey) (t : Int) : LastSeenTable :=
  if (tbl.find? (fun row => row.1 = k)).isSome then
    tbl.map (fun row => if row.1 = k then (k, t) else row)
  else tbl ++ [(k, t)]

/-- The mutable state of `GLGMonitor` relevant to reception tracking:
the state machine state, the open reception, the idle window, the
fields `parse_response` extracts from the current poll, the `LastSeen`
table and the `Reception` history table.  Display widgets, the title
queue, and the poll re-arming counters are presentation/scheduling glue
and are omitted.  The display-only parse fields (frequency, modulation,
tags, ...) are carried to the new `Reception` directly from the
response object, as in the source. -/
structure GLGMonitor where
  state : ReceivingState
  reception : Option Reception
  idletime : Int
  squelch : Bool
  mute : Bool
  receive_time : Int
  system_name : String
  group_name : String
  channel_name : String
  lastSeen : LastSeenTable
  history : List Reception
deriving DecidableEq

/-- Models `GLGMonitor.is_active`: checks the squelch only. -/
def GLGMonitor.is_active (m : GLGMonitor) : Bool := m.squelch

/-- Models `GLGMonitor.sys_id`: defined only while active. -/
def GLGMonitor.sys_id (m : GLGMonitor) : Option String :=
  if m.is_active then
    some (m.system_name ++ "-" ++ m.group_name ++ "-" ++ m.channel_name)
  else none

/-- Models `GLGMonitor.parse_response(glgresp)`: extract the monitor fields
from the decoded poll. -/
def parse_response (m : GLGMonitor) (g : GlgResp) : GLGMonitor :=
  { m with
    receive_time := g.TIME,
    system_name := g.NAME1, group_name := g.NAME2, channel_name := g.NAME3,
    squelch := g.SQL == "1", mute := g.MUT == "1" }

/-- Models `GLGMonitor.create_reception(glgresp)`: enter `RECEIVING`, build a
fresh `Reception` from the poll, read its prior `LastSeen` timestamp,
and upsert `LastSeen` with the new start time.  The source returns the
reception and both callers immediately store it in `self.reception`;
the model folds that assignment in. -/
def create_reception (m : GLGMonitor) (g : GlgResp) : GLGMonitor :=
  let m1 := { m with state := ReceivingState.RECEIVING }
  let r0 := Reception.ofGlg g
  let key : LSKey := (r0.system, r0.group, r0.channel)
  let r := { r0 with lastseen := lsLookup m1.lastSeen key }
  { m1 with
    lastSeen := lsUpsert m1.lastSeen key r.starttime,
    reception := some r }

/-- Models `GLGMonitor.write_database()`: insert the open reception (if any)
into the history table, then either open a new reception from the
current poll (active) or clear the reception and go `IDLE` (inactive).
`self.glgresp`, stored by `process` before any call, is threaded as the
`g` argument. -/
def write_database (m : GLGMonitor) (g : GlgResp) : GLGMonitor :=
  let m1 := match m.reception with
    | some r => { m with history := m.history ++ [r] }
    | none => m
  if m1.is_active then create_reception m1 g
  else { m1 with reception := none, state := ReceivingState.IDLE }

/-- Models `GLGMonitor.accumulate_time()`.  `none` models the `AttributeError`
Python would raise were no reception open.  The duration update mirrors
`(self.receive_time - self.reception.starttime).seconds`: the seconds
component of the timedelta, i.e. the total seconds modulo 86400. -/
def accumulate_time (m : GLGMonitor) (g : GlgResp) : Option GLGMonitor :=
  match m.reception with
  | none => none
  | some r =>
    let samesystem := m.sys_id == some r.sys_id
    let r1 :=
      if r.last_active_state || samesystem then
        { r with duration := (m.receive_time - r.starttime) % 86400 }
      else r
    let r2 := { r1 with last_active_state := m.is_active }
    let m2 := { m with reception := some r2 }
    if m2.is_active then
      if samesystem then
        some { m2 with state := ReceivingState.RECEIVING,
                       reception := some { r2 with last_active_time := m2.receive_time } }
      else some (write_database { m2 with state := ReceivingState.RECEIVING } g)
    else some { m2 with state := ReceivingState.TIMEOUT }

/-- Models `GLGMonitor.process(glgcmd, glgresp)`: the watcher callback and main
state machine.  The poll re-arming bookkeeping at its tail touches no
tracked state and is omitted.  `none` models a raised exception
(attribute access on a missing reception). -/
def process (m : GLGMonitor) (g : GlgResp) : Option GLGMonitor :=
  let mp := parse_response m g
  match mp.state with
  | ReceivingState.IDLE =>
    some (if mp.is_active then create_reception mp g else mp)
  | ReceivingState.RECEIVING => accumulate_time mp g
  | ReceivingState.TIMEOUT =>
    match mp.reception with
    | none => none
    | some r =>
      let time_exceeded := g.TIME - r.last_active_time > mp.idletime
      if mp.is_active || !(decide time_exceeded) then accumulate_time mp g
      else some (write_database mp g)

/-- A concrete decoded `GLG` poll for the executable scenarios: time,
system name, squelch and mute vary; group/channel and the display-only
fields are fixed. -/
def samplePoll (t : Int) (n1 sql mu : String) : GlgResp :=
  { TIME := t, FRQ_TGID := "0463.0000", MOD := "FM", ATT := "0",
    CTCSS_DCS := "0", NAME1 := n1, NAME2 := "G", NAME3 := "C",
    SQL := sql, MUT := mu,
    SYS_TAG := "NONE", CHAN_TAG := "NONE", P25NAC := "NONE" }

/-- The monitor as `GLGMonitor.__init__` leaves it: `IDLE`, no open
reception, default 11-second idle window, empty tables. -/
def monitor0 : GLGMonitor :=
  { state := ReceivingState.IDLE, reception := none, idletime := 11,
    squelch := false, mute := false, receive_time := 0,
    system_name := "", group_name := "", channel_name := "",
    lastSeen := [], history := [] }

/-! ## Decoder lemmas: the suffix search can never find a free name -/

/-- Base-10 digit characters are unchanged by upper-casing. -/
theorem digitChar_toUpper (n : Nat) (h : n < 10) :
    (Nat.digitChar n).toUpper = Nat.digitChar n := by
  interval_cases n <;> decide

/-- Every character `Nat.toDigitsCore` emits in base 10 is unchanged by
upper-casing. -/
theorem toDigitsCore_toUpper (fuel : Nat) :
    ∀ (n : Nat) (ds : List Char), (∀ c ∈ ds, c.toUpper = c) →
      ∀ c ∈ Nat.toDigitsCore 10 fuel n ds, c.toUpper = c := by
  induction fuel with
  | zero => intro n ds h c hc; exact h c hc
  | succ f ih =>
    intro n ds h c hc
    have hd : (Nat.digitChar (n % 10)).toUpper = Nat.digitChar (n % 10) :=
      digitChar_toUpper _ (Nat.mod_lt _ (by norm_num))
    have hds : ∀ c ∈ Nat.digitChar (n % 10) :: ds, c.toUpper = c := by
      intro x hx
      rw [List.mem_cons] at hx
      rcases hx with rfl | hx
      · exact hd
      · exact h x hx
    simp only [Nat.toDigitsCore] at hc
    by_cases h0 : n / 10 = 0
    · rw [if_pos h0] at hc
      exact hds c hc
    · rw [if_neg h0] at hc
      exact ih (n / 10) _ hds c hc

/-- Decimal renderings `str(incr)` consist only of upper-case-invariant characters. -/
theorem natRepr_isUpper (n : Nat) : isUpperName (Nat.repr n) = true := by
  unfold isUpperName
  rw [List.all_eq_true]
  intro c hc
  have hu : c.toUpper = c :=
    toDigitsCore_toUpper (n + 1) n [] (by intro x hx; cases hx) c hc
  simp [hu]

theorem isUpperName_append (a b : String) :
    isUpperName (a ++ b) = (isUpperName a && isUpperName b) := by
  unfold isUpperName
  rw [String.data_append, List.all_append]

/-- Here `hasattr` reports every all-uppercase name as present, because
`Response.__getattr__` returns `None` rather than raising. -/
theorem hasattrPy_of_upper (attrs : List (String × String)) (name : String)
    (h : isUpperName name = true) : hasattrPy attrs name = true := by
  simp [hasattrPy, h]

/-- The `while hasattr(response, var + str(incr))` search never exits
when `var` is all-uppercase: every candidate name is all-uppercase, so
`hasattr` keeps answering `True` whatever the fuel. -/
theorem findFree_eq_none (attrs : List (String × String)) (v : String)
    (hv : isUpperName v = true) :
    ∀ fuel incr, findFree (hasattrPy attrs) v fuel incr = none := by
  intro fuel
  induction fuel with
  | zero => intro incr; rfl
  | succ f ih =>
    intro incr
    have hup : isUpperName (v ++ Nat.repr incr) = true := by
      rw [isUpperName_append, hv, natRepr_isUpper]
      rfl
    rw [findFree, if_pos (hasattrPy_of_upper attrs _ hup)]
    exact ih (incr + 1)

/-- The `gendecode` loop diverges as soon as it reaches a part whose
variable name is all-uppercase: `hasattr` answers `True` (either the
attribute really exists, as for `CMD`, or `__getattr__` returns `None`),
and the suffix search then never halts. -/
theorem gendecodeGo_eq_none (varlist : List String) (x : String)
    (rest : List String) (i : Nat) (attrs : List (String × String))
    (hv : isUpperName (varlist.getD i "VAR") = true)
    (fuel : Nat) : gendecodeGo varlist (x :: rest) i attrs fuel = none := by
  rw [gendecodeGo]
  simp only [hasattrPy_of_upper attrs _ hv, if_true]
  rw [findFree_eq_none attrs _ hv]

/-- Thus `gendecode` diverges on any nonempty part list whose first variable
name is all-uppercase (and position 0 is always named `CMD`, an
attribute that genuinely exists). -/
theorem gendecode_eq_none (varlist : List String) (x : String)
    (rest : List String) (hv : isUpperName (varlist.getD 0 "VAR") = true)
    (fuel : Nat) : gendecode fuel varlist (x :: rest) = none :=
  gendecodeGo_eq_none varlist x rest 0 [] hv fuel

/-! ## Decoder claims -/

/-- Claim C7 (the code is wrong): with a schema assigning the same name
`RSV` to two positions, the generic decoder never assigns `RSV` to the
first occurrence and `RSV1` to the second — it does not even get past
the first duplicated position.  We give the first position a
non-uppercase name so the run demonstrably reaches the duplicated
field: the loop assigns it, then hangs forever in the suffix search at
the first `RSV`, for every fuel bound. -/
theorem C7_duplicate_schema_diverges (fuel : Nat) :
    gendecode fuel ["cmd", "RSV", "RSV"] ["t", "1", "2"] = none := by
  show gendecodeGo ["cmd", "RSV", "RSV"] ["t", "1", "2"] 0 [] fuel = none
  have hstep :
      gendecodeGo ["cmd", "RSV", "RSV"] ["t", "1", "2"] 0 [] fuel =
        gendecodeGo ["cmd", "RSV", "RSV"] ["1", "2"] 1 [("cmd", "t")] fuel := by
    rw [gendecodeGo]
    rfl
  rw [hstep]
  exact gendecodeGo_eq_none _ "1" ["2"] 1 [("cmd", "t")] (by decide) fuel

/-- Claim C8 (the code is wrong): decoding does NOT terminate for every
input line.  On the data line `GLG,X` the constructor reaches
`gendecode`, whose suffix search for the first field name `CMD` (an
attribute set in `__init__`) spins forever — `hasattr` reports `CMD1`,
`CMD2`, ... all present because `__getattr__` returns `None` for any
all-uppercase name.  Formally: for every fuel bound the decode fails to
return. -/
theorem C8_decode_diverges (fuel : Nat) :
    decodeResponse (some "GLG,X") fuel = none := by
  have h : gendecode fuel GLG_VARLIST ["GLG", "X"] = none :=
    gendecode_eq_none GLG_VARLIST "GLG" ["X"] (by decide) fuel
  have key : ∀ o, gendecode fuel GLG_VARLIST ["GLG", "X"] = o →
      decodeResponse (some "GLG,X") fuel =
        (match o with
         | none => none
         | some attrs => some (Except.ok
             { CMD := "GLG", response := "GLG,X", parts := ["GLG", "X"],
               VARLIST := GLG_VARLIST, RESP := none, status := "RESP",
               attrs := attrs })) := by
    rintro o rfl
    rfl
  exact key none h

/-- Claim C9 counterexample: the empty input line does NOT fail with a
`DecodeError` — `Response('')` returns normally, producing a response
object whose `status` is `DECODEERROR`. -/
theorem C9_empty_line_returns_ok :
    decodeResponse (some "") 0 =
      some (Except.ok
        { CMD := "", response := "", parts := [], VARLIST := ["CMD"],
          RESP := none, status := "DECODEERROR", attrs := [] }) := rfl

/-- Claim C9 (amended): a `None` input raises `ScannerDecodeError`;
every NONEMPTY line splitting into fewer than 2 comma-separated tokens
raises `ScannerDecodeError`; the empty line instead returns a response
whose status is `DECODEERROR` — so in all three cases the caller never
receives a valid data response. -/
theorem C9_short_line_errors :
    (∀ fuel, decodeResponse none fuel =
        some (Except.error "None is invalid as a response"))
    ∧ (∀ line fuel, line ≠ "" → (pySplit (pyRstripCR line)).length < 2 →
        decodeResponse (some line) fuel =
          some (Except.error
            ("Invalid response (" ++ pyRstripCR line ++ ") from scanner")))
    ∧ (∀ fuel, ∃ r, decodeResponse (some "") fuel = some (Except.ok r) ∧
        r.status = "DECODEERROR" ∧ r.status ≠ "RESP" ∧ r.attrs = []) := by
  refine ⟨fun fuel => rfl, ?_, fun fuel => ⟨_, rfl, rfl, by decide, rfl⟩⟩
  intro line fuel h1 h2
  simp only [decodeResponse]
  rw [if_neg (by simp [h1]), if_pos h2]

/-- Witness for the amended C9 at the one-token line `X`. -/
theorem C9_short_line_errors_witness :
    decodeResponse (some "X") 0 =
      some (Except.error
        ("Invalid response (" ++ pyRstripCR "X" ++ ") from scanner")) :=
  C9_short_line_errors.2.1 "X" 0 (by decide) (by decide)

/-- Claim C10: every two-token line whose second token is one of the
terminal status codes `OK`, `NG`, `FER`, `ORER` decodes to a response
whose `status` is that token, with the upper-cased command name and no
schema-decoded data fields (`attrs = []`; the `RESP` attribute set in
this branch mirrors the status). -/
theorem C10_ack_decode (line a b : String) (fuel : Nat)
    (h : pySplit (pyRstripCR line) = [a, b])
    (hb : b = "OK" ∨ b = "NG" ∨ b = "FER" ∨ b = "ORER") :
    decodeResponse (some line) fuel =
      some (Except.ok
        { CMD := pyUpper a, response := pyRstripCR line, parts := [a, b],
          VARLIST := ["CMD"], RESP := some b, status := b, attrs := [] }) := by
  have hne : line ≠ "" := by
    rintro rfl
    have hlen := congrArg List.length h
    simp [pySplit, pyRstripCR, splitCommaChars] at hlen
  have hmem : b ∈ ackCodes := by
    rcases hb with rfl | rfl | rfl | rfl <;> decide
  simp only [decodeResponse]
  rw [if_neg (by simp [hne]), h]
  rw [if_neg (by simp), if_pos (by simp [hmem, List.getD])]
  rfl

/-- Witness for C10 at the acknowledgement line `abc,OK`. -/
theorem C10_ack_decode_witness :
    decodeResponse (some "abc,OK") 0 =
      some (Except.ok
        { CMD := pyUpper "abc", response := pyRstripCR "abc,OK",
          parts := ["abc", "OK"], VARLIST := ["CMD"], RESP := some "OK",
          status := "OK", attrs := [] }) :=
  C10_ack_decode "abc,OK" "abc" "OK" 0 (by decide) (Or.inl rfl)

/-! ## Correlator claim -/

/-- Claim C5: for a decoded response dispatched by the read loop, every
watcher registered under the response's command name is invoked exactly
once (the snapshot, second component, lists the invocations), the
watcher is removed if and only if its callback returns `True`, and a
watcher whose callback returns `False` both remains registered and is
invoked again on the next matching response. -/
theorem C5_dispatch (cb : Command → RespKey → Bool) (q : WatchQueue)
    (resp : RespKey) (c : Command) (hc : c ∈ q resp.CMD) :
    ((read_dispatch cb q resp).2 = q resp.CMD)
    ∧ ((q resp.CMD).Nodup → ((read_dispatch cb q resp).2.count c = 1))
    ∧ (c ∈ (read_dispatch cb q resp).1 resp.CMD ↔ cb c resp = false)
    ∧ (cb c resp = false →
        c ∈ (read_dispatch cb (read_dispatch cb q resp).1 resp).2) := by
  have hlen : ¬((q resp.CMD).length = 0) := by
    intro h0
    rw [List.length_eq_zero] at h0
    rw [h0] at hc
    cases hc
  have hsnap : (read_dispatch cb q resp).2 = q resp.CMD := by
    have e : (read_dispatch cb q resp).2 =
        if (q resp.CMD).length = 0 then q "*" else q resp.CMD := rfl
    rw [e, if_neg hlen]
  have hq1 : (read_dispatch cb q resp).1 resp.CMD =
      (q resp.CMD).filter (fun x => !(cb x resp)) := by
    have e : (read_dispatch cb q resp).1 resp.CMD =
        if resp.CMD = (if (q resp.CMD).length = 0 then "*" else resp.CMD) then
          (if (q resp.CMD).length = 0 then q "*" else q resp.CMD).filter
            (fun x => !(cb x resp))
        else q resp.CMD := rfl
    rw [e]
    simp only [if_neg hlen]
    simp
  refine ⟨hsnap, fun hnd => ?_, ?_, fun hfalse => ?_⟩
  · rw [hsnap]
    exact List.count_eq_one_of_mem hnd hc
  · rw [hq1, List.mem_filter]
    constructor
    · intro h
      simpa using h.2
    · intro h
      exact ⟨hc, by simp [h]⟩
  · have hmem1 : c ∈ (read_dispatch cb q resp).1 resp.CMD := by
      rw [hq1, List.mem_filter]
      exact ⟨hc, by simp [hfalse]⟩
    have hlen1 : ¬(((read_dispatch cb q resp).1 resp.CMD).length = 0) := by
      intro h0
      rw [List.length_eq_zero] at h0
      rw [h0] at hmem1
      cases hmem1
    have e2 : (read_dispatch cb ((read_dispatch cb q resp).1) resp).2 =
        if (((read_dispatch cb q resp).1) resp.CMD).length = 0 then
          ((read_dispatch cb q resp).1) "*"
        else ((read_dispatch cb q resp).1) resp.CMD := rfl
    rw [e2, if_neg hlen1]
    exact hmem1

/-- Concrete data for the C5 witness: one registered watcher whose
callback never finishes (`False`), as the periodic status poll uses. -/
def sampleCommand : Command :=
  { cmd := "GLG", cmdstring := "GLG", callback := some 0, userdata := 0 }

/-- A watcher table holding exactly `sampleCommand` under `GLG`. -/
def sampleQueue : WatchQueue :=
  fun k => if k = "GLG" then [sampleCommand] else []

/-- The dispatched response key for the C5 witness. -/
def sampleResp : RespKey := { CMD := "GLG" }

/-- Witness for C5: the persistent watcher (callback constantly
`False`) stays registered and is re-invoked. -/
theorem C5_dispatch_witness :
    ((read_dispatch (fun _ _ => false) sampleQueue sampleResp).2 =
        sampleQueue sampleResp.CMD)
    ∧ ((sampleQueue sampleResp.CMD).Nodup →
        ((read_dispatch (fun _ _ => false) sampleQueue sampleResp).2.count
            sampleCommand = 1))
    ∧ (sampleCommand ∈
          (read_dispatch (fun _ _ => false) sampleQueue sampleResp).1
            sampleResp.CMD
        ↔ (fun (_ : Command) (_ : RespKey) => false) sampleCommand sampleResp
            = false)
    ∧ ((fun (_ : Command) (_ : RespKey) => false) sampleCommand sampleResp
          = false →
        sampleCommand ∈
          (read_dispatch (fun _ _ => false)
            ((read_dispatch (fun _ _ => false) sampleQueue sampleResp).1)
            sampleResp).2) :=
  C5_dispatch (fun _ _ => false) sampleQueue sampleResp sampleCommand
    (by decide)

/-! ## Tracker claims -/

/-- Lemma: `parse_response` commutes with overriding the stored state: it
touches only the per-poll fields. -/
theorem parse_response_state (m : GLGMonitor) (g : GlgResp)
    (s : ReceivingState) :
    parse_response { m with state := s } g =
      { parse_response m g with state := s } := rfl

/-- Lemma: `accumulate_time` never reads the stored state: every branch
overwrites it. -/
theorem accumulate_time_state (m : GLGMonitor) (g : GlgResp)
    (s : ReceivingState) :
    accumulate_time { m with state := s } g = accumulate_time m g := by
  obtain ⟨st, rec, idt, sq, mu, rt, sn, gn, cn, ls, hi⟩ := m
  cases rec <;> rfl

/-- Claim C2 counterexample: a poll with `SQL == '1'` and `MUT == '1'`
is treated as ACTIVE — `is_active` checks the squelch only, and from
`IDLE` such a poll opens a reception. -/
theorem C2_muted_poll_treated_active :
    (parse_response monitor0 (samplePoll 0 "A" "1" "1")).is_active = true
    ∧ (parse_response monitor0 (samplePoll 0 "A" "1" "1")).mute = true
    ∧ (process monitor0 (samplePoll 0 "A" "1" "1")).map
        (fun m => m.state) = some ReceivingState.RECEIVING :=
  ⟨rfl, rfl, rfl⟩

/-- Claim C2 (amended): the derived activity flag equals the squelch
bit alone, `isActive = (SQL == '1')`; the mute bit is parsed but does
not enter `is_active`. -/
theorem C2_is_active_is_squelch (m : GLGMonitor) (g : GlgResp) :
    (parse_response m g).is_active = (g.SQL == "1")
    ∧ (parse_response m g).mute = (g.MUT == "1") := ⟨rfl, rfl⟩

/-- Looking up an updated-in-place key finds the new value. -/
theorem lsLookup_map_update (k : LSKey) (t : Int) :
    ∀ tbl : LastSeenTable, (tbl.find? (fun row => row.1 = k)).isSome →
      lsLookup (tbl.map (fun row => if row.1 = k then (k, t) else row)) k =
        some t := by
  intro tbl
  induction tbl with
  | nil => intro h; cases h
  | cons hd tl ih =>
    intro hsome
    by_cases hk : hd.1 = k
    · simp [lsLookup, List.find?_cons, hk]
    · have htl : (tl.find? (fun row => row.1 = k)).isSome := by
        simpa [List.find?_cons, hk] using hsome
      simpa [lsLookup, List.find?_cons, hk] using ih htl

/-- Looking up a freshly appended key (absent before) finds it. -/
theorem lsLookup_append_new (k : LSKey) (t : Int) :
    ∀ tbl : LastSeenTable, tbl.find? (fun row => row.1 = k) = none →
      lsLookup (tbl ++ [(k, t)]) k = some t := by
  intro tbl
  induction tbl with
  | nil => intro _; simp [lsLookup]
  | cons hd tl ih =>
    intro hnone
    by_cases hk : hd.1 = k
    · rw [List.find?_cons_of_pos _ (by simpa using hk)] at hnone
      cases hnone
    · rw [List.find?_cons_of_neg _ (by simpa using hk)] at hnone
      simpa [lsLookup, List.find?_cons, hk] using ih hnone

/-- The `UPDATE`-or-`INSERT` pair is an upsert: the key afterwards maps
to the written timestamp. -/
theorem lsLookup_lsUpsert (tbl : LastSeenTable) (k : LSKey) (t : Int) :
    lsLookup (lsUpsert tbl k t) k = some t := by
  unfold lsUpsert
  by_cases h : (tbl.find? (fun row => row.1 = k)).isSome
  · rw [if_pos h]
    exact lsLookup_map_update k t tbl h
  · rw [if_neg h]
    exact lsLookup_append_new k t tbl (Option.not_isSome_iff_eq_none.mp h)

/-- Claim C4 counterexample: in the switch-to-system-B scenario,
`LastHeard[B]` is upserted the moment B's reception OPENS — after the
second poll it already reads B's start time 102 while the history table
holds only A's row (B has not finalized). -/
theorem C4_lastheard_written_at_open :
    ((process monitor0 (samplePoll 100 "A" "1" "0")).bind
        (fun m => process m (samplePoll 102 "B" "1" "0"))).map
      (fun m => (lsLookup m.lastSeen ("B", "G", "C"),
                 m.history.map (fun r => r.system)))
    = some (some 102, ["A"]) := rfl

/-- Claim C4 (amended): finalizing inserts the history row; it touches
`LastHeard` only through the reception it may OPEN next: with the poll
inactive `LastHeard` is unchanged (and the tracker clears the reception
and goes `IDLE`); with the poll active the newly opened reception's
`sysId` is upserted to the new start time — `create_reception` performs
that upsert at open, so in the switch scenario `LastHeard[B]` is set
when B opens, not when B finalizes. -/
theorem C4_finalize_inserts_open_upserts (m : GLGMonitor) (r : Reception)
    (g : GlgResp) (hr : m.reception = some r) :
    ((write_database m g).history = m.history ++ [r])
    ∧ (m.is_active = false →
        (write_database m g).lastSeen = m.lastSeen
        ∧ (write_database m g).reception = none
        ∧ (write_database m g).state = ReceivingState.IDLE)
    ∧ (m.is_active = true →
        lsLookup (write_database m g).lastSeen (g.NAME1, g.NAME2, g.NAME3) =
          some g.TIME)
    ∧ lsLookup (create_reception m g).lastSeen (g.NAME1, g.NAME2, g.NAME3) =
        some g.TIME := by
  have hkey := lsLookup_lsUpsert m.lastSeen (g.NAME1, g.NAME2, g.NAME3) g.TIME
  refine ⟨?_, fun hina => ?_, fun hact => ?_, ?_⟩
  · by_cases hsq : m.squelch
    · simp [write_database, hr, GLGMonitor.is_active, hsq, create_reception]
    · simp [write_database, hr, GLGMonitor.is_active, hsq]
  · have hsq : m.squelch = false := hina
    simp [write_database, hr, GLGMonitor.is_active, hsq]
  · have hsq : m.squelch = true := hact
    simpa [write_database, hr, GLGMonitor.is_active, hsq, create_reception,
      Reception.ofGlg] using hkey
  · simpa [create_reception, Reception.ofGlg] using hkey

/-- The reception opened by the first sample poll (system `A`, start 0). -/
def sampleRecA : Reception := Reception.ofGlg (samplePoll 0 "A" "1" "0")

/-- A monitor in `RECEIVING` with `sampleRecA` open. -/
def monitorRecA : GLGMonitor :=
  { state := ReceivingState.RECEIVING, reception := some sampleRecA,
    idletime := 11, squelch := true, mute := false, receive_time := 0,
    system_name := "A", group_name := "G", channel_name := "C",
    lastSeen := [(("A", "G", "C"), 0)], history := [] }

/-- Witness for the amended C4, finalizing `A` on an active `B` poll:
`LastHeard[B]` reads B's start time right after the finalize-and-open. -/
theorem C4_finalize_inserts_open_upserts_witness :
    lsLookup (write_database monitorRecA (samplePoll 5 "B" "1" "0")).lastSeen
        ("B", "G", "C") = some 5 :=
  (C4_finalize_inserts_open_upserts monitorRecA sampleRecA
      (samplePoll 5 "B" "1" "0") rfl).2.2.1 rfl

/-- Claim C1 counterexample: reach `TIMEOUT` with reception `A` open
(active at 0, inactive at 2), then feed an ACTIVE poll for a different
system `B` at time 5 — the idle window (11 s) is not exceeded, so by
the claim the tracker runs the `RECEIVING` logic AND the reception
stays open; in fact that logic finalizes `A` (history grows) and
replaces the open reception by a fresh one for `B`. -/
theorem C1_reception_replaced_in_timeout :
    ((process monitor0 (samplePoll 0 "A" "1" "0")).bind
        (fun m => process m (samplePoll 2 "A" "0" "0"))).map
      (fun m => m.state) = some ReceivingState.TIMEOUT
    ∧ (((process monitor0 (samplePoll 0 "A" "1" "0")).bind
        (fun m => process m (samplePoll 2 "A" "0" "0"))).bind
        (fun m => process m (samplePoll 5 "B" "1" "0"))).map
        (fun m => (m.history.map (fun r => r.system),
                   m.reception.map (fun r => r.system)))
      = some (["A"], some "B") := ⟨rfl, rfl⟩

/-- Claim C1 (amended): in `TIMEOUT` with a reception open, an inactive
poll past the idle window finalizes the reception to history, clears
it, and enters `IDLE`; an active poll, or one within the window, is
processed exactly as it would be in the `RECEIVING` state (which keeps
the reception open unless the poll is active for a different system,
in which case that same logic finalizes it and opens a fresh one). -/
theorem C1_timeout_step (m : GLGMonitor) (r : Reception) (g : GlgResp)
    (hs : m.state = ReceivingState.TIMEOUT) (hr : m.reception = some r) :
    (g.SQL ≠ "1" → g.TIME - r.last_active_time > m.idletime →
      process m g = some { parse_response m g with
        history := m.history ++ [r], reception := none,
        state := ReceivingState.IDLE })
    ∧ ((g.SQL = "1" ∨ g.TIME - r.last_active_time ≤ m.idletime) →
      process m g = process { m with state := ReceivingState.RECEIVING } g) := by
  have hst : (parse_response m g).state = ReceivingState.TIMEOUT := hs
  have hrec : (parse_response m g).reception = some r := hr
  have hrhs : process { m with state := ReceivingState.RECEIVING } g =
      accumulate_time (parse_response m g) g := by
    simp only [process, parse_response_state]
    exact accumulate_time_state (parse_response m g) g _
  constructor
  · intro h1 h2
    have hsql : (g.SQL == "1") = false := by simp [h1]
    have hact : (parse_response m g).is_active = false := hsql
    have hte : decide
        (g.TIME - r.last_active_time > (parse_response m g).idletime) =
          true := decide_eq_true h2
    simp only [process, hst, hrec, hact, hte, Bool.not_true, Bool.false_or,
      if_false, write_database, GLGMonitor.is_active]
    have hsq : (parse_response m g).squelch = false := hsql
    simp [hsq, parse_response, h1]
  · intro h12
    have hcond : ((parse_response m g).is_active ||
        !(decide (g.TIME - r.last_active_time >
            (parse_response m g).idletime))) = true := by
      rcases h12 with h | h
      · have : (parse_response m g).is_active = true := by
          simp [GLGMonitor.is_active, parse_response, h]
        simp [this]
      · have : decide (g.TIME - r.last_active_time >
            (parse_response m g).idletime) = false :=
          decide_eq_false (not_lt.mpr h)
        simp [this]
    simp only [process, hst, hrec, hcond, if_true]
    exact hrhs.symm

/-- A monitor in `TIMEOUT` with `sampleRecA` still open. -/
def monitorTimeoutA : GLGMonitor :=
  { monitorRecA with state := ReceivingState.TIMEOUT, squelch := false }

/-- Witness for the amended C1: an inactive poll 20 s after the last
activity (window 11 s) finalizes and idles. -/
theorem C1_timeout_step_witness :
    process monitorTimeoutA (samplePoll 20 "A" "0" "0") =
      some { parse_response monitorTimeoutA (samplePoll 20 "A" "0" "0") with
        history := monitorTimeoutA.history ++ [sampleRecA],
        reception := none, state := ReceivingState.IDLE } :=
  (C1_timeout_step monitorTimeoutA sampleRecA (samplePoll 20 "A" "0" "0")
      rfl rfl).1 (by decide) (by decide)

/-- Claim C3: in `RECEIVING`, an active poll for a different `sysId`
finalizes the open reception to history (with `lastActiveState`
recorded `true` and its duration frozen at some value `d`), opens a
fresh reception for the new system from the same poll, and leaves the
state `RECEIVING`. -/
theorem C3_receiving_switch (m : GLGMonitor) (r : Reception) (g : GlgResp)
    (hs : m.state = ReceivingState.RECEIVING) (hr : m.reception = some r)
    (hact : g.SQL = "1")
    (hdiff : g.NAME1 ++ "-" ++ g.NAME2 ++ "-" ++ g.NAME3 ≠ r.sys_id) :
    ∃ m2 d r2, process m g = some m2
      ∧ m2.state = ReceivingState.RECEIVING
      ∧ m2.history =
          m.history ++ [{ r with duration := d, last_active_state := true }]
      ∧ m2.reception = some r2
      ∧ r2.system = g.NAME1 ∧ r2.group = g.NAME2 ∧ r2.channel = g.NAME3
      ∧ r2.starttime = g.TIME ∧ r2.duration = 0 := by
  obtain ⟨st, rec, idt, sq, mu, rt, sn, gn, cn, ls, hi⟩ := m
  dsimp only at hs hr
  subst hs
  subst hr
  have hsql : (g.SQL == "1") = true := by simp [hact]
  have hss : ((some (g.NAME1 ++ "-" ++ g.NAME2 ++ "-" ++ g.NAME3) :
      Option String) == some r.sys_id) = false := by simp [hdiff]
  simp only [process, parse_response, accumulate_time, GLGMonitor.sys_id,
    GLGMonitor.is_active, write_database, create_reception, Reception.ofGlg,
    hsql, hss, if_true, if_false, Option.some.injEq, Bool.false_eq_true,
    Bool.or_false]
  by_cases hlas : r.last_active_state
  · simp only [hlas, Bool.true_or, if_true]
    exact ⟨_, (g.TIME - r.starttime) % 86400, _, rfl, rfl, rfl, rfl,
      rfl, rfl, rfl, rfl, rfl⟩
  · have hlas2 : r.last_active_state = false := by simpa using hlas
    simp only [hlas2, Bool.false_or, Bool.false_eq_true, if_false]
    exact ⟨_, r.duration, _, rfl, rfl, rfl, rfl, rfl, rfl, rfl, rfl, rfl⟩

/-- Witness for C3: switching from `A` to an active `B` poll. -/
theorem C3_receiving_switch_witness :
    ∃ m2 d r2,
      process monitorRecA (samplePoll 5 "B" "1" "0") = some m2
      ∧ m2.state = ReceivingState.RECEIVING
      ∧ m2.history = monitorRecA.history ++
          [{ sampleRecA with duration := d, last_active_state := true }]
      ∧ m2.reception = some r2
      ∧ r2.system = (samplePoll 5 "B" "1" "0").NAME1
      ∧ r2.group = (samplePoll 5 "B" "1" "0").NAME2
      ∧ r2.channel = (samplePoll 5 "B" "1" "0").NAME3
      ∧ r2.starttime = (samplePoll 5 "B" "1" "0").TIME
      ∧ r2.duration = 0 :=
  C3_receiving_switch monitorRecA sampleRecA (samplePoll 5 "B" "1" "0")
    rfl rfl rfl (by decide)

/-- Claim C6 counterexample: same-system extensions set `duration` to
the SECONDS COMPONENT of `pollTime - startTime` (`timedelta.seconds`),
which wraps at 86400: after a poll at t = 86399 the duration reads
86399, and the next poll at t = 86400 DROPS it to 0 — the duration of
an open reception is not monotone across successive polls. -/
theorem C6_duration_wraps :
    ((process monitor0 (samplePoll 0 "A" "1" "0")).bind
        (fun m => process m (samplePoll 86399 "A" "1" "0"))).map
      (fun m => m.reception.map (fun r => r.duration))
      = some (some 86399)
    ∧ (((process monitor0 (samplePoll 0 "A" "1" "0")).bind
        (fun m => process m (samplePoll 86399 "A" "1" "0"))).bind
        (fun m => process m (samplePoll 86400 "A" "1" "0"))).map
      (fun m => m.reception.map (fun r => r.duration))
      = some (some 0) := ⟨rfl, rfl⟩

/-- Lemma: whenever the extension condition of `accumulate_time` holds
(`self.reception.last_active_state or samesystem`), the reception gets
its duration set to `(receive_time - starttime) % 86400`; the extended
reception either remains the open one (same system, or inactive poll)
or, on an active different-system poll, becomes the row appended to
history by the finalize inside `accumulate_time`. -/
theorem accumulate_time_ext (m : GLGMonitor) (r : Reception) (g : GlgResp)
    (hr : m.reception = some r)
    (hext : (r.last_active_state || (m.sys_id == some r.sys_id)) = true) :
    ∃ m2 r2, accumulate_time m g = some m2
      ∧ (m2.reception = some r2 ∨ m2.history = m.history ++ [r2])
      ∧ r2.starttime = r.starttime
      ∧ r2.duration = (m.receive_time - r.starttime) % 86400 := by
  obtain ⟨st, rec, idt, sq, mu, rt, sn, gn, cn, ls, hi⟩ := m
  dsimp only at hr hext ⊢
  subst hr
  simp only [accumulate_time, GLGMonitor.is_active, hext, if_true]
  by_cases hsq : sq
  · subst hsq
    by_cases hsame : ((GLGMonitor.sys_id
        ⟨st, some r, idt, true, mu, rt, sn, gn, cn, ls, hi⟩) ==
          some r.sys_id) = true
    · simp only [hsame, if_true]
      exact ⟨_, _, rfl, Or.inl rfl, rfl, rfl⟩
    · have hsame2 : ((GLGMonitor.sys_id
          ⟨st, some r, idt, true, mu, rt, sn, gn, cn, ls, hi⟩) ==
            some r.sys_id) = false := by simpa using hsame
      simp only [hsame2, if_true, Bool.false_eq_true, if_false,
        write_database, create_reception, Reception.ofGlg,
        GLGMonitor.is_active]
      exact ⟨_, _, rfl, Or.inr rfl, rfl, rfl⟩
  · have hsq2 : sq = false := by simpa using hsq
    subst hsq2
    simp only [Bool.false_eq_true, if_false]
    exact ⟨_, _, rfl, Or.inl rfl, rfl, rfl⟩

/-- Claim C6 (amended): on EVERY extension poll — the poll's `sysId`
equals the open reception's while active, or the reception's
`lastActiveState` was true on the previous poll, whether in `RECEIVING`
or on the `TIMEOUT` accumulate path (poll active or window not yet
exceeded) — the extended reception's duration is set to
`(pollTime - startTime) mod 86400` (Python's `timedelta.seconds`);
this equals the elapsed whole seconds, and hence never decreases across
successive polls, as long as the reception has been open for less than
one day. -/
theorem C6_duration_formula (m : GLGMonitor) (r : Reception) (g : GlgResp)
    (hr : m.reception = some r)
    (hext : r.last_active_state = true ∨
      (g.SQL = "1" ∧ g.NAME1 ++ "-" ++ g.NAME2 ++ "-" ++ g.NAME3 = r.sys_id))
    (hstate : m.state = ReceivingState.RECEIVING ∨
      (m.state = ReceivingState.TIMEOUT ∧
        (g.SQL = "1" ∨ g.TIME - r.last_active_time ≤ m.idletime))) :
    ∃ m2 r2, process m g = some m2
      ∧ (m2.reception = some r2 ∨ m2.history = m.history ++ [r2])
      ∧ r2.starttime = r.starttime
      ∧ r2.duration = (g.TIME - r.starttime) % 86400
      ∧ (∀ tprev, r.duration = (tprev - r.starttime) % 86400 →
          r.starttime ≤ tprev → tprev ≤ g.TIME →
          g.TIME - r.starttime < 86400 → r.duration ≤ r2.duration) := by
  have hrp : (parse_response m g).reception = some r := hr
  have hextb : (r.last_active_state ||
      ((parse_response m g).sys_id == some r.sys_id)) = true := by
    rcases hext with h | ⟨ha, hsame⟩
    · simp [h]
    · have hsys : (parse_response m g).sys_id =
          some (g.NAME1 ++ "-" ++ g.NAME2 ++ "-" ++ g.NAME3) := by
        simp [GLGMonitor.sys_id, GLGMonitor.is_active, parse_response, ha]
      simp [hsys, hsame]
  have hproc : process m g = accumulate_time (parse_response m g) g := by
    rcases hstate with hs | ⟨hs, hcond⟩
    · have hst : (parse_response m g).state = ReceivingState.RECEIVING := hs
      simp only [process, hst]
    · have hst : (parse_response m g).state = ReceivingState.TIMEOUT := hs
      have hcondb : ((parse_response m g).is_active ||
          !(decide (g.TIME - r.last_active_time >
              (parse_response m g).idletime))) = true := by
        rcases hcond with h | h
        · have hia : (parse_response m g).is_active = true := by
            simp [GLGMonitor.is_active, parse_response, h]
          simp [hia]
        · have hte : decide (g.TIME - r.last_active_time >
              (parse_response m g).idletime) = false :=
            decide_eq_false (not_lt.mpr h)
          simp [hte]
      simp only [process, hst, hrp, hcondb, if_true]
  obtain ⟨m2, r2, he, hor, hstart, hdur⟩ :=
    accumulate_time_ext (parse_response m g) r g hrp hextb
  have hdur2 : r2.duration = (g.TIME - r.starttime) % 86400 := hdur
  refine ⟨m2, r2, hproc.trans he, hor, hstart, hdur2, ?_⟩
  intro tprev h0 hstart2 hle hlt
  have e1 : (tprev - r.starttime) % 86400 = tprev - r.starttime :=
    Int.emod_eq_of_lt (by omega) (by omega)
  have e2 : (g.TIME - r.starttime) % 86400 = g.TIME - r.starttime :=
    Int.emod_eq_of_lt (by omega) (by omega)
  rw [h0, e1, hdur2, e2]
  omega

/-- Witness for the amended C6: extending `A` at t = 7 from start 0,
in `RECEIVING`, with both the `lastActiveState` and the same-system
extension conditions available. -/
theorem C6_duration_formula_witness :
    ∃ m2 r2,
      process monitorRecA (samplePoll 7 "A" "1" "0") = some m2
      ∧ (m2.reception = some r2
          ∨ m2.history = monitorRecA.history ++ [r2])
      ∧ r2.starttime = sampleRecA.starttime
      ∧ r2.duration = ((samplePoll 7 "A" "1" "0").TIME -
          sampleRecA.starttime) % 86400
      ∧ (∀ tprev,
          sampleRecA.duration = (tprev - sampleRecA.starttime) % 86400 →
          sampleRecA.starttime ≤ tprev →
          tprev ≤ (samplePoll 7 "A" "1" "0").TIME →
          (samplePoll 7 "A" "1" "0").TIME - sampleRecA.starttime < 86400 →
          sampleRecA.duration ≤ r2.duration) :=
  C6_duration_formula monitorRecA sampleRecA (samplePoll 7 "A" "1" "0")
    rfl (Or.inl rfl) (Or.inl rfl)

end Scanmon
